import Mathlib

/-!
# SerwerMLS — shallow embedding and verification

A shallow embedding of the license-lease server (`src/Server.py`) and client
(`src/Client.py`) of the SerwerMLS repository, together with theorems settling
the specification claims about it.

Modelling conventions:
* timestamps are natural numbers (seconds); the two `datetime.now()` calls that
  a single request handler makes microseconds apart are modelled by one `now`
  parameter;
* `datetime.isoformat` is modelled as an injective rendering of the timestamp
  (`Nat.repr`); no claim depends on the concrete ISO text;
* Python exceptions are modelled with `Except PyError`;
* the JSON wire payloads are flat objects of strings, booleans and null, so a
  message is modelled as its key/value list (`json.dumps` followed by
  `json.loads` is the identity on such objects);
* `hashlib.md5` is modelled by a full executable MD5 implementation, so that
  credentials are computed bit-for-bit as the Python library computes them.
-/

/-! ## Python runtime model: errors, UTF-8, JSON values -/

/-- Python exceptions that the modelled code can raise. -/
inductive PyError where
  | typeError (msg : String)
  | attributeError (msg : String)
  deriving DecidableEq, Repr

namespace Py

/-- UTF-8 encoding of one character, as byte values (Python `str.encode`). -/
def utf8Char (c : Char) : List Nat :=
  let n := c.toNat
  if n < 128 then [n]
  else if n < 2048 then [192 + n / 64, 128 + n % 64]
  else if n < 65536 then [224 + n / 4096, 128 + (n / 64) % 64, 128 + n % 64]
  else [240 + n / 262144, 128 + (n / 4096) % 64, 128 + (n / 64) % 64, 128 + n % 64]

/-- UTF-8 encoding of a string (Python `s.encode('utf-8')`). -/
def utf8Encode (s : String) : List Nat :=
  (s.data.map utf8Char).flatten

end Py

/-- A JSON value as found in this protocol's flat message objects. -/
inductive JVal where
  | null
  | jbool (b : Bool)
  | jstr (s : String)
  deriving DecidableEq, Repr

/-! ## hashlib model: MD5

Executable MD5 (RFC 1321), used by both `Client.generate_key` and
`Server.ClientHandler.generate_key` through Python's `hashlib.md5`. -/

namespace Hashlib

/-- The constant 2^32, the word modulus of MD5 arithmetic. -/
def w32 : Nat := 4294967296

/-- Left-rotation of a 32-bit word. -/
def rotl (x n : Nat) : Nat := ((x <<< n) % w32) ||| (x >>> (32 - n))

/-- The 64 sine-derived MD5 round constants. -/
def kTable : List Nat :=
  [0xd76aa478, 0xe8c7b756, 0x242070db, 0xc1bdceee,
   0xf57c0faf, 0x4787c62a, 0xa8304613, 0xfd469501,
   0x698098d8, 0x8b44f7af, 0xffff5bb1, 0x895cd7be,
   0x6b901122, 0xfd987193, 0xa679438e, 0x49b40821,
   0xf61e2562, 0xc040b340, 0x265e5a51, 0xe9b6c7aa,
   0xd62f105d, 0x02441453, 0xd8a1e681, 0xe7d3fbc8,
   0x21e1cde6, 0xc33707d6, 0xf4d50d87, 0x455a14ed,
   0xa9e3e905, 0xfcefa3f8, 0x676f02d9, 0x8d2a4c8a,
   0xfffa3942, 0x8771f681, 0x6d9d6122, 0xfde5380c,
   0xa4beea44, 0x4bdecfa9, 0xf6bb4b60, 0xbebfbc70,
   0x289b7ec6, 0xeaa127fa, 0xd4ef3085, 0x04881d05,
   0xd9d4d039, 0xe6db99e5, 0x1fa27cf8, 0xc4ac5665,
   0xf4292244, 0x432aff97, 0xab9423a7, 0xfc93a039,
   0x655b59c3, 0x8f0ccc92, 0xffeff47d, 0x85845dd1,
   0x6fa87e4f, 0xfe2ce6e0, 0xa3014314, 0x4e0811a1,
   0xf7537e82, 0xbd3af235, 0x2ad7d2bb, 0xeb86d391]

/-- The 64 per-round left-rotation amounts. -/
def sTable : List Nat :=
  [7, 12, 17, 22, 7, 12, 17, 22, 7, 12, 17, 22, 7, 12, 17, 22,
   5, 9, 14, 20, 5, 9, 14, 20, 5, 9, 14, 20, 5, 9, 14, 20,
   4, 11, 16, 23, 4, 11, 16, 23, 4, 11, 16, 23, 4, 11, 16, 23,
   6, 10, 15, 21, 6, 10, 15, 21, 6, 10, 15, 21, 6, 10, 15, 21]

/-- Which message word round `i` mixes in. -/
def mixIndex (i : Nat) : Nat :=
  if i < 16 then i
  else if i < 32 then (5 * i + 1) % 16
  else if i < 48 then (3 * i + 5) % 16
  else (7 * i) % 16

/-- The nonlinear function of round `i` applied to words `b`, `c`, `d`. -/
def roundFun (i b c d : Nat) : Nat :=
  if i < 16 then (b &&& c) ||| ((b ^^^ 4294967295) &&& d)
  else if i < 32 then (d &&& b) ||| ((d ^^^ 4294967295) &&& c)
  else if i < 48 then b ^^^ c ^^^ d
  else c ^^^ (b ||| (d ^^^ 4294967295))

/-- Render `n` as `k` little-endian bytes. -/
def leBytes : Nat → Nat → List Nat
  | 0, _ => []
  | k + 1, n => (n % 256) :: leBytes k (n / 256)

/-- The `j`-th little-endian 32-bit word of a 64-byte chunk. -/
def wordAt (chunk : List Nat) (j : Nat) : Nat :=
  chunk.getD (4 * j) 0 + 256 * chunk.getD (4 * j + 1) 0 +
    65536 * chunk.getD (4 * j + 2) 0 + 16777216 * chunk.getD (4 * j + 3) 0

/-- MD5 compression of one 64-byte chunk into the running state. -/
def processChunk (st : Nat × Nat × Nat × Nat) (chunk : List Nat) :
    Nat × Nat × Nat × Nat :=
  let step := fun (abcd : Nat × Nat × Nat × Nat) (i : Nat) =>
    let (a, b, c, d) := abcd
    let tmp := (a + roundFun i b c d + kTable.getD i 0 +
      wordAt chunk (mixIndex i)) % w32
    ((d : Nat), (b + rotl tmp (sTable.getD i 0)) % w32, b, c)
  let (a, b, c, d) := (List.range 64).foldl step st
  ((st.1 + a) % w32, (st.2.1 + b) % w32, (st.2.2.1 + c) % w32, (st.2.2.2 + d) % w32)

/-- MD5 padding: `0x80`, zeros to 56 mod 64, then the bit length as 8 LE bytes. -/
def padMessage (msg : List Nat) : List Nat :=
  let len := msg.length
  msg ++ [128] ++ List.replicate ((119 - len % 64) % 64) 0 ++
    leBytes 8 ((8 * len) % 18446744073709551616)

/-- Split a byte list into 64-byte chunks (structural recursion on a fuel
bound so that the kernel can evaluate it). -/
def toChunksFuel : Nat → List Nat → List (List Nat)
  | 0, _ => []
  | _ + 1, [] => []
  | fuel + 1, l => l.take 64 :: toChunksFuel fuel (l.drop 64)

/-- Split a byte list into 64-byte chunks. -/
def toChunks (l : List Nat) : List (List Nat) :=
  toChunksFuel (l.length / 64 + 1) l

/-- The 16-byte MD5 digest of a byte message. -/
def md5Bytes (msg : List Nat) : List Nat :=
  let (a, b, c, d) := (toChunks (padMessage msg)).foldl processChunk
    (0x67452301, 0xefcdab89, 0x98badcfe, 0x10325476)
  leBytes 4 a ++ leBytes 4 b ++ leBytes 4 c ++ leBytes 4 d

/-- A nibble as a lowercase hexadecimal character. -/
def hexDigit (n : Nat) : Char :=
  if n < 10 then Char.ofNat (48 + n) else Char.ofNat (87 + n)

/-- A byte as two lowercase hexadecimal characters. -/
def byteHex (b : Nat) : List Char := [hexDigit (b / 16), hexDigit (b % 16)]

/-- Python `hashlib.md5(msg).hexdigest()`: 32 lowercase hex characters. -/
def md5Hexdigest (msg : List Nat) : String :=
  String.mk ((md5Bytes msg).map byteHex).flatten

end Hashlib

/-! ## Server model (`src/Server.py`) -/

namespace Server

/-- Model of `Server.py` `Response`: the `expired` argument is a `datetime` or
`None`; the constructor stores `expired.isoformat()` (a string) or `None`. -/
structure Response where
  license_user_name : String
  license_valid : Bool
  description : String
  expired : Option String
  deriving DecidableEq, Repr

/-- Python `datetime.isoformat` modelled as an injective text rendering of the
timestamp (the concrete ISO text never matters to the claims). -/
def isoformat (t : Nat) : String := Nat.repr t

/-- Constructor call `Response(license_user_name, license_valid, description, expired)`:
the constructor applied to a `datetime`-or-`None` expiry. -/
def Response.new (license_user_name : String) (license_valid : Bool)
    (description : String) (expired : Option Nat) : Response :=
  ⟨license_user_name, license_valid, description, expired.map isoformat⟩

/-- Method `Response.to_dict`, the object handed to `json.dumps`. -/
def Response.to_dict (r : Response) : List (String × JVal) :=
  [("license_user_name", JVal.jstr r.license_user_name),
   ("license_valid", JVal.jbool r.license_valid),
   ("description", JVal.jstr r.description),
   ("expired", match r.expired with
               | none => JVal.null
               | some s => JVal.jstr s)]

/-- Model of `Server.py` `Request`. -/
structure Request where
  license_user_name : String
  license_key : String
  deriving DecidableEq, Repr

/-- Model of `Server.py` `LicenseInfo` (the property getters/setters are plain field
access). -/
structure LicenseInfo where
  license_user_name : String
  validation_time : Nat
  expiry_time : Option Nat
  is_used : Bool
  deriving DecidableEq, Repr

/-- The server's `self.licenses` dictionary. -/
def LicMap : Type := String → Option LicenseInfo

/-- The empty dictionary. -/
def emptyLicenses : LicMap := fun _ => none

/-- Python dictionary assignment `d[k] = v`. -/
def mapInsert (m : LicMap) (k : String) (v : LicenseInfo) : LicMap :=
  fun k' => if k' = k then some v else m k'

/-- Method `LicenseServer.load_licenses`: each roster item yields
`LicenseInfo(license_user_name=name, validation_time=vt)` (so `expiry_time`
unset and `is_used` false), inserted in order with later items overwriting. -/
def load_licenses (roster : List (String × Nat)) : LicMap :=
  roster.foldl (fun m item => mapInsert m item.1 ⟨item.1, item.2, none, false⟩)
    emptyLicenses

/-- Static method `ClientHandler.generate_key`: the MD5 hex digest of the UTF-8 encoded
username. -/
def ClientHandler.generate_key (username : String) : String :=
  Hashlib.md5Hexdigest (Py.utf8Encode username)

/-- Function `calculate_expiry_date(validation_time)` = `datetime.now() +
timedelta(seconds=validation_time)`, with `now` passed explicitly. -/
def calculate_expiry_date (validation_time now : Nat) : Nat :=
  now + validation_time

/-- The truthy test `license_info.expiry_time and datetime.now() >
license_info.expiry_time` from `handle_request` (a `None` expiry is falsy). -/
def expiredForReissue (info : LicenseInfo) (now : Nat) : Bool :=
  match info.expiry_time with
  | none => false
  | some e => decide (e < now)

/-- Method `ClientHandler.handle_request`: looks the holder up, checks the
credential, then issues or reports the existing lease.  The function returns
the response the handler sends over the socket together with the licenses
dictionary after the call (the Python method sends the response itself and
returns `None`). -/
def handle_request (licenses : LicMap) (request : Request) (now : Nat) :
    Response × LicMap :=
  match licenses request.license_user_name with
  | none =>
      (Response.new request.license_user_name false "Token not found" none,
       licenses)
  | some license_info =>
      if ClientHandler.generate_key request.license_user_name ≠ request.license_key then
        (Response.new request.license_user_name false "Invalid key" none,
         licenses)
      else if !license_info.is_used || expiredForReissue license_info now then
        let newInfo : LicenseInfo :=
          { license_info with
            is_used := true
            expiry_time := some (calculate_expiry_date license_info.validation_time now) }
        (Response.new request.license_user_name true "License issued"
           (some (calculate_expiry_date license_info.validation_time now)),
         mapInsert licenses request.license_user_name newInfo)
      else
        (Response.new request.license_user_name true "License already in use"
           license_info.expiry_time,
         licenses)

/-- One scan of `LicenseServer.schedule_license_expiry_check`'s loop body:
flip `is_used` to false on every record with a set, strictly past expiry
(`license_t.expiry_time and license_t.expiry_time < now and
license_t.is_used`). -/
def expiry_check_pass (m : LicMap) (now : Nat) : LicMap :=
  fun name =>
    match m name with
    | none => none
    | some info =>
        some (if expiredForReissue info now && info.is_used then
                { info with is_used := false }
              else info)

/-- Decoding `Request(**json.loads(data))` on the server side: keyword binding to
`Request.__init__(license_user_name, license_key)`; an extraneous or missing
key raises `TypeError`.  Both payload fields produced by the client are
strings. -/
def Request.from_kwargs (d : List (String × JVal)) : Except PyError Request :=
  if d.any (fun kv => !(kv.1 == "license_user_name" || kv.1 == "license_key")) then
    .error (.typeError "Request() got an unexpected keyword argument")
  else
    match d.lookup "license_user_name", d.lookup "license_key" with
    | some (JVal.jstr n), some (JVal.jstr k) => .ok ⟨n, k⟩
    | _, _ => .error (.typeError "Request() missing a required positional argument")

/-- The reachable states of the server's licenses dictionary: the
roster-loaded initial state, closed under request handling and the periodic
expiry reclaimer. -/
inductive Reachable (roster : List (String × Nat)) : LicMap → Prop where
  | init : Reachable roster (load_licenses roster)
  | handle (m : LicMap) (req : Request) (now : Nat) :
      Reachable roster m → Reachable roster (handle_request m req now).2
  | reclaim (m : LicMap) (now : Nat) :
      Reachable roster m → Reachable roster (expiry_check_pass m now)

end Server

/-! ## Client model (`src/Client.py`) -/

namespace Client

/-- Model of `Client.py` `Response`.  The wire carries `expired` as an ISO string or
null; here the slot holds the timestamp that string denotes (parsing
`fromisoformat` of `isoformat` output is abstracted to the identity on
timestamps). -/
structure Response where
  license_valid : Bool
  description : String
  expired : Option Nat
  deriving DecidableEq, Repr

/-- Method `Response.is_license_valid`. -/
def Response.is_license_valid (r : Response) : Bool := r.license_valid

/-- Method `Response.get_expiry_time`: the parsed expiry as a timestamp, `-1` when
`expired` is `None` (and on a parse error, which the model does not produce). -/
def Response.get_expiry_time (r : Response) : Int :=
  match r.expired with
  | none => -1
  | some e => (e : Int)

/-- Method `Response.is_valid`: compares the parsed expiry against the current time.
Note the source consults only the expiry, never `license_valid`. -/
def Response.is_valid (r : Response) (now : Nat) : Bool :=
  decide (Response.get_expiry_time r > (now : Int))

/-- Decoding `Response(**json.loads(text))` on the client side: keyword binding to
`Response.__init__(license_valid, description, expired)` — an extraneous or a
missing key raises `TypeError` — followed by the constructor body, whose
`expired.isoformat()` raises `AttributeError` whenever `expired` is not
`None`, because a JSON-decoded expiry is a string and `str` has no
`isoformat`.  The `jbool`/`jstr` patterns for the other two parameters match
every payload the server produces (Python itself would store a value of any
type unchecked). -/
def Response.from_kwargs (d : List (String × JVal)) : Except PyError Response :=
  if d.any (fun kv =>
      !(kv.1 == "license_valid" || kv.1 == "description" || kv.1 == "expired")) then
    .error (.typeError "Response() got an unexpected keyword argument")
  else
    match d.lookup "license_valid", d.lookup "description", d.lookup "expired" with
    | some (JVal.jbool lv), some (JVal.jstr desc), some ex =>
        match ex with
        | JVal.null => .ok ⟨lv, desc, none⟩
        | _ => .error (.attributeError "str object has no attribute isoformat")
    | _, _, _ => .error (.typeError "Response() missing a required positional argument")

/-- Model of `Client.py` `Request`. -/
structure Request where
  license_user_name : String
  license_key : String
  deriving DecidableEq, Repr

/-- Encoding `json.dumps(request.__dict__)`: the request payload put on the wire. -/
def Request.to_kwargs (r : Request) : List (String × JVal) :=
  [("license_user_name", JVal.jstr r.license_user_name),
   ("license_key", JVal.jstr r.license_key)]

/-- Module-level `generate_key` in `Client.py`: the MD5 hex digest of the
UTF-8 encoded username. -/
def generate_key (username : String) : String :=
  Hashlib.md5Hexdigest (Py.utf8Encode username)

/-- The mutable state of a `LicenseClientAPI` instance.  `scheduled` is the
`sched.scheduler` event queue (each entry the delay passed to
`scheduler.enter`); `inFlight` counts the `_request_license_token_thread`
threads started and not yet finished — ghost accounting of
`threading.Thread(...).start()`, which the source performs with no
request-in-progress check. -/
structure State where
  license_key : Option String
  license_user_name : Option String
  server_port : Nat
  server_address : Option String
  current_token : Option Response
  scheduled : List Int
  inFlight : Nat
  deriving DecidableEq, Repr

/-- The state `LicenseClientAPI.__init__` produces, after `start(addr, port)`
and `set_license(user, key)`. -/
def startedState (addr : String) (port : Nat) (user key : String) : State :=
  { license_key := some key
    license_user_name := some user
    server_port := port
    server_address := some addr
    current_token := none
    scheduled := []
    inFlight := 0 }

/-- Method `LicenseClientAPI.request_license_token`: unconditionally starts a new
`_request_license_token_thread` thread.  No flag is read or set first. -/
def request_license_token (s : State) : State :=
  { s with inFlight := s.inFlight + 1 }

/-- Method `LicenseClientAPI.schedule_token_renewal(expiry_time)`:
`scheduler.enter(expiry_time - time.time(), 1, request_license_token)`. -/
def schedule_token_renewal (s : State) (expiry_time : Int) (now : Nat) : State :=
  { s with scheduled := s.scheduled ++ [expiry_time - (now : Int)] }

/-- Method `LicenseClientAPI.update_token(new_token)`: cache the token; arm a renewal
only when `new_token.is_license_valid()`. -/
def update_token (s : State) (new_token : Response) (now : Nat) : State :=
  if new_token.is_license_valid then
    schedule_token_renewal { s with current_token := some new_token }
      new_token.get_expiry_time now
  else
    { s with current_token := some new_token }

/-- Method `LicenseClientAPI.get_license_token`: refuse (returning `None`) when the
cached description is exactly `"Server not running"` or `"Connection error"`;
otherwise start a request thread when there is no valid cached token, and
return the (not yet replaced) cached token. -/
def get_license_token (s : State) (now : Nat) : Option Response × State :=
  match s.current_token with
  | some t =>
      if t.description == "Server not running" || t.description == "Connection error" then
        (none, s)
      else if !t.is_valid now then
        let s' := request_license_token s
        (s'.current_token, s')
      else
        (some t, s)
  | none =>
      let s' := request_license_token s
      (s'.current_token, s')

/-- How one `_request_license_token_thread` round trip ended at the transport
boundary. -/
inductive TransportOutcome where
  | received (d : List (String × JVal))
  | emptyResponse
  | connectionRefused
  | jsonDecodeError
  | forciblyClosed
  | otherSocketError
  | otherException
  deriving DecidableEq, Repr

/-- The state effect of `_request_license_token_thread` once the round trip
ends with the given outcome: a decoded response goes through `update_token`; a
`Response(**…)` constructor raise is caught by the final `except Exception`
handler (yielding a `"Connection error"` token); each transport failure
stores its synthetic failure token directly, arming nothing. -/
def request_thread_result (s : State) (o : TransportOutcome) (now : Nat) : State :=
  match o with
  | .received d =>
      match Response.from_kwargs d with
      | .ok r => update_token s r now
      | .error _ => { s with current_token := some ⟨false, "Connection error", none⟩ }
  | .emptyResponse =>
      { s with current_token := some ⟨false, "Empty response from server", none⟩ }
  | .connectionRefused =>
      { s with current_token := some ⟨false, "Server not running", none⟩ }
  | .jsonDecodeError =>
      { s with current_token := some ⟨false, "Invalid JSON response", none⟩ }
  | .forciblyClosed =>
      { s with current_token := some ⟨false, "Connection forcibly closed", none⟩ }
  | .otherSocketError =>
      { s with current_token := some ⟨false, "Connection error", none⟩ }
  | .otherException =>
      { s with current_token := some ⟨false, "Connection error", none⟩ }

/-- The zero-argument call `self.scheduler.cancel()` that opens
`LicenseClientAPI.stop`.  `sched.scheduler.cancel(event)` requires its
`event` argument, so the call raises `TypeError` before removing anything
from the queue. -/
def schedulerCancelNoArgs (_queue : List Int) : Except PyError Unit :=
  .error (.typeError "cancel() missing 1 required positional argument: event")

/-- Everything `stop` would do after the `scheduler.cancel()` line: the
best-effort `"STOP"` send inside `try`/`except` (no state effect; transport
failures are swallowed) and the clearing of the cached token, identity,
credential and server address. -/
def stopRest (s : State) : State :=
  { s with
    current_token := none
    license_user_name := none
    license_key := none
    server_address := none
    server_port := 0 }

/-- Method `LicenseClientAPI.stop`: `self.scheduler.cancel()` first, then the
`"STOP"` send and the field clearing. -/
def stop (s : State) : Except PyError State := do
  let _ ← schedulerCancelNoArgs s.scheduled
  pure (stopRest s)

end Client

/-! ## Shared fixtures and helper lemmas -/

/-- A one-holder roster, as `licenses.json` would provide it. -/
def demoRoster : List (String × Nat) := [("alice", 30)]

/-- The licenses dictionary loaded from `demoRoster`. -/
def demoLicenses : Server.LicMap := Server.load_licenses demoRoster

/-- A roster with a zero validity duration — `load_licenses` accepts it
(`item.get("ValidationTime", 0)` even defaults to zero). -/
def zeroRoster : List (String × Nat) := [("z", 0)]

/-- A licenses dictionary holding a currently leased, unexpired record. -/
def demoLeased : Server.LicMap :=
  Server.mapInsert Server.emptyLicenses "alice" ⟨"alice", 30, some 100, true⟩

/-- The lease-table invariant used for C9: every leased record has an expiry
set, and every record keeps a positive validity duration. -/
def Server.LeaseInv (m : Server.LicMap) : Prop :=
  ∀ name info, m name = some info →
    (info.is_used = true → ∃ e, info.expiry_time = some e)
      ∧ 0 < info.validation_time

/-- Decoding any encoded server response on the client fails at keyword
binding: the server's dict carries `license_user_name`, which the client's
`Response.__init__(license_valid, description, expired)` does not accept. -/
theorem response_decode_to_dict_fails (r : Server.Response) :
    Client.Response.from_kwargs (Server.Response.to_dict r)
      = .error (.typeError "Response() got an unexpected keyword argument") := rfl

/-- Request payloads do round-trip: the server-side `Request(**json.loads …)`
recovers the client's request fields. -/
theorem request_decode_roundtrip (r : Client.Request) :
    Server.Request.from_kwargs (Client.Request.to_kwargs r)
      = .ok ⟨r.license_user_name, r.license_key⟩ := rfl

/-! ## Claim theorems -/

/-- C1: the spec requires a request whose credential field is the literal
`"STOP"` marker to be recognized as a disconnect notice and kept away from
the credential check, but `ClientHandler.handle_request` has no such branch:
the STOP request of a rostered holder is credential-matched (`generate_key`
of the holder is a 32-character hex digest, never `"STOP"`) and answered
with the `"Invalid key"` (InvalidCredential) outcome. -/
theorem c1_stop_request_gets_invalid_key :
    (Server.handle_request demoLicenses ⟨"alice", "STOP"⟩ 0).1
      = Server.Response.new "alice" false "Invalid key" none := by decide

/-- C3: the wire round trip fails on the response side — for every server
response, encoding (`to_dict`, the object `json.dumps` serializes) and then
decoding on the client (`Response(**json.loads …)`) raises `TypeError`
instead of returning a value equal to the original, because the client
constructor does not accept the `license_user_name` key (and a non-null
`expired` string would next raise `AttributeError` at `expired.isoformat()`). -/
theorem c3_response_decode_always_fails (r : Server.Response) :
    Client.Response.from_kwargs (Server.Response.to_dict r)
      = .error (.typeError "Response() got an unexpected keyword argument") :=
  response_decode_to_dict_fails r

/-- C4: no single-flight guard exists — `request_license_token` starts a new
request thread unconditionally, so calling it while one request is already in
flight (here: a state with one running request thread) leaves two concurrent
requests in flight, contradicting the claimed at-most-one. -/
theorem c4_second_request_spawned :
    (Client.request_license_token
      { Client.startedState "127.0.0.1" 5000 "alice" (Client.generate_key "alice")
          with inFlight := 1 }).inFlight = 2 := rfl

/-- C5: `stop()` always raises — its first statement `self.scheduler.cancel()`
omits the `event` argument that `sched.scheduler.cancel` requires, so a
`TypeError` propagates out of `stop` before the `"STOP"` send and before any
field is cleared, for every client state (armed timer or not). -/
theorem c5_stop_always_raises (s : Client.State) :
    Client.stop s = .error
      (.typeError "cancel() missing 1 required positional argument: event") := rfl

/-- C2 counterexample: `is_valid` never consults the `license_valid` flag, so
a token whose flag is false but whose expiry lies ahead of the clock is
reported valid, although the claim says a false flag is never reported
valid. -/
theorem c2_valid_flag_ignored :
    Client.Response.is_valid ⟨false, "License issued", some 10⟩ 0 = true
      ∧ (Client.Response.mk false "License issued" (some 10)).license_valid
          = false := by
  exact ⟨by decide, rfl⟩

/-- C2 amended: `is_valid()` returns true iff the parsed expiry timestamp
(`-1` when no expiry is set) is strictly later than the current time; the
`valid` flag is not consulted at all, and a token with no expiry set is never
reported valid. -/
theorem c2_is_valid_amended (v : Bool) (d : String) (eo : Option Nat) (now : Nat) :
    (Client.Response.is_valid ⟨v, d, eo⟩ now = true ↔ ∃ e, eo = some e ∧ now < e)
      ∧ Client.Response.is_valid ⟨v, d, none⟩ now = false
      ∧ Client.Response.is_valid ⟨v, d, eo⟩ now
          = Client.Response.is_valid ⟨!v, d, eo⟩ now := by
  refine ⟨?_, ?_, rfl⟩
  · cases eo with
    | none =>
        simp only [Client.Response.is_valid, Client.Response.get_expiry_time,
          decide_eq_true_eq]
        constructor
        · intro h; omega
        · rintro ⟨e, he, _⟩; cases he
    | some e =>
        simp only [Client.Response.is_valid, Client.Response.get_expiry_time,
          decide_eq_true_eq, Option.some.injEq]
        constructor
        · intro h; exact ⟨e, rfl, by omega⟩
        · rintro ⟨e', he, hlt⟩; cases he; omega
  · simp only [Client.Response.is_valid, Client.Response.get_expiry_time,
      decide_eq_false_iff_not]
    omega

/-- C6: for a rostered holder whose record is free — not leased, or leased
with a strictly past expiry — `handle_request` with the matching credential
answers `valid = true`, reason `"License issued"`, expiry
`now + validation_time`, and updates the record to leased with that expiry. -/
theorem c6_issue (m : Server.LicMap) (req : Server.Request) (now : Nat)
    (info : Server.LicenseInfo)
    (hfound : m req.license_user_name = some info)
    (hkey : req.license_key = Server.ClientHandler.generate_key req.license_user_name)
    (hfree : info.is_used = false ∨ ∃ e, info.expiry_time = some e ∧ e < now) :
    (Server.handle_request m req now).1
        = Server.Response.new req.license_user_name true "License issued"
            (some (Server.calculate_expiry_date info.validation_time now))
      ∧ (Server.handle_request m req now).2 req.license_user_name
        = some { info with
                 is_used := true
                 expiry_time := some (Server.calculate_expiry_date info.validation_time now) } := by
  have hcond : (!info.is_used || Server.expiredForReissue info now) = true := by
    rcases hfree with h | ⟨e, he, hlt⟩
    · simp [h]
    · simp [Server.expiredForReissue, he, hlt]
  unfold Server.handle_request
  rw [hfound, hkey]
  simp [hcond, Server.mapInsert]

/-- C7: for a rostered holder whose lease is held and unexpired
(`now ≤ expiry`), `handle_request` with the matching credential answers
`valid = true`, reason `"License already in use"` carrying the existing
expiry, and leaves the licenses dictionary untouched. -/
theorem c7_already_in_use (m : Server.LicMap) (req : Server.Request) (now : Nat)
    (info : Server.LicenseInfo) (e : Nat)
    (hfound : m req.license_user_name = some info)
    (hkey : req.license_key = Server.ClientHandler.generate_key req.license_user_name)
    (hused : info.is_used = true)
    (hexp : info.expiry_time = some e)
    (hcur : now ≤ e) :
    (Server.handle_request m req now).1
        = Server.Response.new req.license_user_name true "License already in use" (some e)
      ∧ (Server.handle_request m req now).2 = m := by
  have hcond : (!info.is_used || Server.expiredForReissue info now) = false := by
    simp [hused, Server.expiredForReissue, hexp]
    omega
  unfold Server.handle_request
  rw [hfound, hkey]
  simp [hcond, hexp]

/-- C6 witness: issuing to `"alice"` (duration 30) at time 7 on the demo
roster returns the issued response with expiry 37 and marks the record
leased. -/
theorem c6_issue_witness :
    (Server.handle_request demoLicenses
        ⟨"alice", Server.ClientHandler.generate_key "alice"⟩ 7).1
      = Server.Response.new "alice" true "License issued"
          (some (Server.calculate_expiry_date 30 7))
    ∧ (Server.handle_request demoLicenses
        ⟨"alice", Server.ClientHandler.generate_key "alice"⟩ 7).2 "alice"
      = some ⟨"alice", 30, some (Server.calculate_expiry_date 30 7), true⟩ :=
  c6_issue demoLicenses ⟨"alice", Server.ClientHandler.generate_key "alice"⟩ 7
    ⟨"alice", 30, none, false⟩ rfl rfl (Or.inl rfl)

/-- C7 witness: while `"alice"` holds an unexpired lease until 100, a repeat
request at time 50 reports the lease without changing the dictionary. -/
theorem c7_already_in_use_witness :
    (Server.handle_request demoLeased
        ⟨"alice", Server.ClientHandler.generate_key "alice"⟩ 50).1
      = Server.Response.new "alice" true "License already in use" (some 100)
    ∧ (Server.handle_request demoLeased
        ⟨"alice", Server.ClientHandler.generate_key "alice"⟩ 50).2 = demoLeased :=
  c7_already_in_use demoLeased ⟨"alice", Server.ClientHandler.generate_key "alice"⟩ 50
    ⟨"alice", 30, some 100, true⟩ 100 rfl rfl rfl rfl (by omega)

/-- C10: the client-side and server-side credential generators are the same
function — the MD5 hex digest of the UTF-8 username — so a request carrying
the client's own derived key always passes the server's credential match
(the outcome is one of the two `valid = true` responses, never
`"Invalid key"`). -/
theorem c10_generate_key_agree (u : String) :
    Client.generate_key u = Server.ClientHandler.generate_key u
      ∧ ∀ (m : Server.LicMap) (info : Server.LicenseInfo) (now : Nat),
          m u = some info →
          (Server.handle_request m ⟨u, Client.generate_key u⟩ now).1.license_valid
            = true := by
  refine ⟨rfl, ?_⟩
  intro m info now hfound
  unfold Server.handle_request
  dsimp only
  rw [hfound]
  dsimp only
  rw [if_neg (by simp [Client.generate_key, Server.ClientHandler.generate_key])]
  split <;> simp [Server.Response.new]

/-- C10 witness: `"alice"`'s client-derived key passes the server's check on
the demo roster. -/
theorem c10_generate_key_agree_witness :
    (Server.handle_request demoLicenses
        ⟨"alice", Client.generate_key "alice"⟩ 0).1.license_valid = true :=
  (c10_generate_key_agree "alice").2 demoLicenses ⟨"alice", 30, none, false⟩ 0 rfl

/-- C8 counterexample: after a connection-level failure whose synthetic token
reads `"Connection forcibly closed"` (errno 10054), the next
`get_license_token` call does not refuse — it starts a fresh request thread
(in-flight count rises from 0 to 1), because the refusal guard lists only
`"Server not running"` and `"Connection error"`. -/
theorem c8_forcibly_closed_retries :
    (Client.get_license_token
        { Client.startedState "127.0.0.1" 5000 "alice" "k" with
            current_token := some ⟨false, "Connection forcibly closed", none⟩ } 0).2.inFlight
      = 1 := rfl

/-- C8 amended: a terminal failure's token is cached without arming a renewal
timer — `update_token` on an invalid token only replaces the cache, and each
transport failure (including a response whose decode raises) stores its
synthetic failure token directly — while `get_license_token` refuses further
automatic requests only when the cached failure description is exactly
`"Server not running"` or `"Connection error"`. -/
theorem c8_failure_handling_amended (s : Client.State) (t : Client.Response)
    (now : Nat) (r : Server.Response) :
    (t.license_valid = false →
        Client.update_token s t now = { s with current_token := some t })
      ∧ Client.request_thread_result s .connectionRefused now
          = { s with current_token := some ⟨false, "Server not running", none⟩ }
      ∧ Client.request_thread_result s .forciblyClosed now
          = { s with current_token := some ⟨false, "Connection forcibly closed", none⟩ }
      ∧ Client.request_thread_result s (.received r.to_dict) now
          = { s with current_token := some ⟨false, "Connection error", none⟩ }
      ∧ ((t.description = "Server not running" ∨ t.description = "Connection error") →
          Client.get_license_token { s with current_token := some t } now
            = (none, { s with current_token := some t })) := by
  refine ⟨?_, rfl, rfl, ?_, ?_⟩
  · intro h
    unfold Client.update_token
    rw [if_neg (by simp [Client.Response.is_license_valid, h])]
  · unfold Client.request_thread_result
    dsimp only
    rw [response_decode_to_dict_fails r]
  · intro h
    unfold Client.get_license_token
    dsimp only
    rcases h with h | h <;> rw [if_pos (by simp [h])]

/-- C8 witness: a `"Token not found"` failure token is cached with no timer
armed, and a cached `"Server not running"` token makes `get_license_token`
refuse without touching the state. -/
theorem c8_failure_handling_witness :
    Client.update_token (Client.startedState "127.0.0.1" 5000 "alice" "k")
        ⟨false, "Token not found", none⟩ 0
      = { Client.startedState "127.0.0.1" 5000 "alice" "k" with
          current_token := some ⟨false, "Token not found", none⟩ }
    ∧ Client.get_license_token
        { Client.startedState "127.0.0.1" 5000 "alice" "k" with
            current_token := some ⟨false, "Server not running", none⟩ } 0
      = (none, { Client.startedState "127.0.0.1" 5000 "alice" "k" with
            current_token := some ⟨false, "Server not running", none⟩ }) :=
  ⟨(c8_failure_handling_amended (Client.startedState "127.0.0.1" 5000 "alice" "k")
      ⟨false, "Token not found", none⟩ 0 (Server.Response.new "x" false "y" none)).1 rfl,
   (c8_failure_handling_amended (Client.startedState "127.0.0.1" 5000 "alice" "k")
      ⟨false, "Server not running", none⟩ 0
      (Server.Response.new "x" false "y" none)).2.2.2.2 (Or.inl rfl)⟩

/-- Pointwise property of the `load_licenses` fold: every record in the
resulting dictionary either survives from the accumulator or is a fresh
not-leased, no-expiry record of some roster item. -/
theorem foldl_mapInsert_inv (P : String → Server.LicenseInfo → Prop) :
    ∀ (l : List (String × Nat)) (acc : Server.LicMap),
      (∀ p ∈ l, P p.1 ⟨p.1, p.2, none, false⟩) →
      (∀ n i, acc n = some i → P n i) →
      ∀ n i,
        (l.foldl (fun m item => Server.mapInsert m item.1 ⟨item.1, item.2, none, false⟩) acc)
            n = some i → P n i := by
  intro l
  induction l with
  | nil => intro acc _ hacc; exact hacc
  | cons p rest ih =>
      intro acc hl hacc n i h
      simp only [List.foldl_cons] at h
      refine ih _ (fun q hq => hl q (List.mem_cons_of_mem p hq)) ?_ n i h
      intro n' i' h'
      unfold Server.mapInsert at h'
      by_cases hn : n' = p.1
      · rw [if_pos hn] at h'
        cases h'
        rw [hn]
        exact hl p (List.mem_cons_self p rest)
      · rw [if_neg hn] at h'
        exact hacc n' i' h'

/-- Loading via `load_licenses` establishes the lease-table invariant when every roster
duration is positive. -/
theorem load_licenses_leaseInv (roster : List (String × Nat))
    (hpos : ∀ p ∈ roster, 0 < p.2) :
    Server.LeaseInv (Server.load_licenses roster) := by
  intro name info h
  refine foldl_mapInsert_inv
    (fun _ i => (i.is_used = true → ∃ e, i.expiry_time = some e)
      ∧ 0 < i.validation_time)
    roster Server.emptyLicenses ?_ ?_ name info h
  · intro p hp
    exact ⟨fun hc => absurd hc (by simp), hpos p hp⟩
  · intro n i hi
    exact absurd hi (by simp [Server.emptyLicenses])

/-- Inserting a record that satisfies the invariant's per-record condition
preserves the lease-table invariant. -/
theorem mapInsert_leaseInv (m : Server.LicMap) (k : String)
    (v : Server.LicenseInfo) (h : Server.LeaseInv m)
    (hv : (v.is_used = true → ∃ e, v.expiry_time = some e)
      ∧ 0 < v.validation_time) :
    Server.LeaseInv (Server.mapInsert m k v) := by
  intro n i hi
  unfold Server.mapInsert at hi
  by_cases hn : n = k
  · rw [if_pos hn] at hi; cases hi; exact hv
  · rw [if_neg hn] at hi; exact h n i hi

/-- Handling a request preserves the lease-table invariant. -/
theorem handle_request_leaseInv (m : Server.LicMap) (req : Server.Request)
    (now : Nat) (h : Server.LeaseInv m) :
    Server.LeaseInv (Server.handle_request m req now).2 := by
  unfold Server.handle_request
  cases hm : m req.license_user_name with
  | none => exact h
  | some info =>
      dsimp only
      split
      · exact h
      · split
        · exact mapInsert_leaseInv m _ _ h ⟨fun _ => ⟨_, rfl⟩, (h _ info hm).2⟩
        · exact h

/-- The periodic expiry scan preserves the lease-table invariant. -/
theorem expiry_check_leaseInv (m : Server.LicMap) (now : Nat)
    (h : Server.LeaseInv m) :
    Server.LeaseInv (Server.expiry_check_pass m now) := by
  intro n i hi
  unfold Server.expiry_check_pass at hi
  cases hm : m n with
  | none => rw [hm] at hi; cases hi
  | some j =>
      rw [hm] at hi
      dsimp only at hi
      injection hi with hj
      split at hj
      · cases hj
        exact ⟨fun hc => absurd hc (by simp), (h n j hm).2⟩
      · cases hj
        exact h n i hm

/-- Every reachable licenses dictionary satisfies the lease-table invariant,
given positive roster durations. -/
theorem reachable_leaseInv (roster : List (String × Nat))
    (hpos : ∀ p ∈ roster, 0 < p.2) (m : Server.LicMap)
    (hr : Server.Reachable roster m) : Server.LeaseInv m := by
  induction hr with
  | init => exact load_licenses_leaseInv roster hpos
  | handle m' req now _ ih => exact handle_request_leaseInv m' req now ih
  | reclaim m' now _ ih => exact expiry_check_leaseInv m' now ih

/-- C9 amended: under the extra hypothesis that every roster validity
duration is strictly positive, every reachable lease-table state satisfies
the invariant: a leased record has a set expiry; a request-handling step
either leaves a leased record exactly as it was or freshly issues it with
expiry `now + validation_time`, strictly in the future at that moment; and
the reclaimer never newly marks a record leased. -/
theorem c9_lease_invariant_amended (roster : List (String × Nat))
    (hpos : ∀ p ∈ roster, 0 < p.2) (m : Server.LicMap)
    (hm : Server.Reachable roster m) :
    (∀ name info, m name = some info → info.is_used = true →
        ∃ e, info.expiry_time = some e)
      ∧ (∀ req now name info₁,
          (Server.handle_request m req now).2 name = some info₁ →
          info₁.is_used = true →
          m name = some info₁
            ∨ (info₁.expiry_time = some (now + info₁.validation_time)
                ∧ now < now + info₁.validation_time))
      ∧ (∀ now name info₁,
          Server.expiry_check_pass m now name = some info₁ →
          info₁.is_used = true → m name = some info₁) := by
  have hinv := reachable_leaseInv roster hpos m hm
  refine ⟨fun name info h hu => (hinv name info h).1 hu, ?_, ?_⟩
  · intro req now name info₁ h1 _
    unfold Server.handle_request at h1
    cases hm2 : m req.license_user_name with
    | none => rw [hm2] at h1; exact Or.inl h1
    | some info =>
        rw [hm2] at h1
        dsimp only at h1
        split at h1
        · exact Or.inl h1
        · split at h1
          · unfold Server.mapInsert at h1
            dsimp only at h1
            by_cases hn : name = req.license_user_name
            · rw [if_pos hn] at h1
              cases h1
              refine Or.inr ⟨rfl, ?_⟩
              have hvt := (hinv req.license_user_name info hm2).2
              dsimp only
              omega
            · rw [if_neg hn] at h1
              exact Or.inl h1
          · exact Or.inl h1
  · intro now name info₁ h1 hu
    unfold Server.expiry_check_pass at h1
    cases hm2 : m name with
    | none => rw [hm2] at h1; cases h1
    | some j =>
        rw [hm2] at h1
        dsimp only at h1
        injection h1 with hj
        split at hj
        · cases hj
          simp at hu
        · cases hj
          rfl

/-- C9 witness: on the demo roster (all durations positive), the state
reached by issuing to `"alice"` at time 7 has its leased record's expiry
set. -/
theorem c9_lease_invariant_witness :
    ∃ e, (⟨"alice", 30, some 37, true⟩ : Server.LicenseInfo).expiry_time
      = some e :=
  (c9_lease_invariant_amended demoRoster (by decide) _
      (Server.Reachable.handle _
        ⟨"alice", Server.ClientHandler.generate_key "alice"⟩ 7
        Server.Reachable.init)).1
    "alice" ⟨"alice", 30, some 37, true⟩ (by decide) rfl

/-- C9 counterexample: with a zero validity duration — which `load_licenses`
accepts (`item.get("ValidationTime", 0)`) — issuing at time 5 reaches a
state whose record is leased with expiry 5, not strictly in the future at
the moment it was set, refuting the claim as stated. -/
theorem c9_zero_duration_counterexample :
    Server.Reachable zeroRoster
        (Server.handle_request (Server.load_licenses zeroRoster)
          ⟨"z", Server.ClientHandler.generate_key "z"⟩ 5).2
      ∧ (Server.handle_request (Server.load_licenses zeroRoster)
          ⟨"z", Server.ClientHandler.generate_key "z"⟩ 5).2 "z"
        = some ⟨"z", 0, some 5, true⟩
      ∧ ¬ (5 : Nat) < 5 :=
  ⟨Server.Reachable.handle _ _ 5 Server.Reachable.init, by decide, by decide⟩
